import Mathlib

/-!
Verification of the cross-channel file-and-identity correlation core of the
azumiagent repository: phone normalizer, pending file buffer, correlation
store (`fileStoreByPhone`), the channel adapters' publish step
(`storeFilesByPhone`), the submission finalizer
(`submitCandidateApplicationTool.execute`), and the candidate database
(`saveCandidate`/`findCandidate`).

Strings are modelled as `List Char`.  JavaScript's `\s` character class (and
`String.trim`) is modelled over its ASCII members (space, tab, newline,
carriage return, form feed, vertical tab), which covers every string the
claims range over.
-/

namespace Azumi

/-- ASCII whitespace, the characters JS `\s` and `String.trim` act on. -/
def isWsChar (c : Char) : Bool :=
  c = ' ' || c = '\t' || c = '\n' || c = '\r' || c = '\x0b' || c = '\x0c'

/-- The character class `[\s\-\(\)\.]` removed by `normalizePhone`
(`candidate-intake-tool.ts`, `telegram-webhook.ts`, `whatsapp-webhook.ts`,
`db.ts`): whitespace, hyphen, parentheses, period. -/
def isSepChar (c : Char) : Bool :=
  isWsChar c || c = '-' || c = '(' || c = ')' || c = '.'

/-- `phone.replace(/[\s\-\(\)\.]/g, '')`. -/
def stripSeparators (s : List Char) : List Char :=
  s.filter (fun c => !isSepChar c)

/-- Test for a leading literal `00`. -/
def starts00 (s : List Char) : Bool :=
  match s with
  | '0' :: '0' :: _ => true
  | _ => false

/-- `.replace(/^00/, '+')`: rewrite a leading `00` to `+` (anchored, first
occurrence only). -/
def collapse00 (s : List Char) : List Char :=
  if starts00 s then '+' :: s.drop 2 else s

/-- `normalizePhone` as written identically in `candidate-intake-tool.ts`,
`telegram-webhook.ts`, `db.ts` and `db-pg.ts`:
`phone.replace(/[\s\-\(\)\.]/g, '').replace(/^00/, '+')`. -/
def normalizePhone (s : List Char) : List Char :=
  collapse00 (stripSeparators s)

/-- Does the string start with the literal `whatsapp:`? -/
def hasWaScheme (s : List Char) : Bool :=
  match s with
  | 'w' :: 'h' :: 'a' :: 't' :: 's' :: 'a' :: 'p' :: 'p' :: ':' :: _ => true
  | _ => false

/-- `phone.replace(/^whatsapp:/, '')` (anchored, removes one occurrence). -/
def stripWaScheme (s : List Char) : List Char :=
  if hasWaScheme s then s.drop 9 else s

/-- The WhatsApp channel variant of `normalizePhone`
(`whatsapp-webhook.ts` lines 76-80): strips the `whatsapp:` transport
scheme, then applies the generic cleanup. -/
def normalizePhoneWA (s : List Char) : List Char :=
  normalizePhone (stripWaScheme s)

/-- `extractPhoneFromWhatsApp`: strips the `whatsapp:` scheme from the
webhook `From` field. -/
def extractPhoneFromWhatsApp (from_ : List Char) : List Char :=
  stripWaScheme from_

-- ── Phone extraction from free text ──────────────────────────────────────

/-- The regex character class `[0-9\s\-\(\)\.]` of the phone pattern. -/
def isPhoneBodyChar (c : Char) : Bool :=
  c.isDigit || isSepChar c

/-- Attempt to match `/\+?[0-9][0-9\s\-\(\)\.]{8,}/` anchored at the head
of `s`, greedily (nothing follows the `{8,}` quantifier, so the greedy
match is maximal); returns the matched substring.  A `+` not followed by
a digit fails both with and without consuming the `+`, exactly as the
backtracking regex engine does. -/
def matchPhoneHere (s : List Char) : Option (List Char) :=
  let (plus, s1) :=
    match s with
    | '+' :: r => ([('+' : Char)], r)
    | _ => (([] : List Char), s)
  match s1 with
  | [] => none
  | c :: r =>
      if c.isDigit then
        let body := r.takeWhile isPhoneBodyChar
        if 8 ≤ body.length then some (plus ++ c :: body) else none
      else none

/-- Leftmost match: try each start position left to right. -/
def scanPhone : List Char → Option (List Char)
  | [] => none
  | c :: rest =>
      match matchPhoneHere (c :: rest) with
      | some m => some m
      | none => scanPhone rest

/-- JS `String.prototype.trim` on both ends. -/
def trimWs (s : List Char) : List Char :=
  ((s.dropWhile isWsChar).reverse.dropWhile isWsChar).reverse

/-- `extractPhoneFromMessage` (`telegram-webhook.ts` lines 85-90 /
`whatsapp-webhook.ts` lines 94-99): `null` for empty/whitespace-only
text, else the trimmed first match of the permissive phone pattern. -/
def extractPhoneFromMessage (text : List Char) : Option (List Char) :=
  if (trimWs text).isEmpty then none
  else (scanPhone text).map trimWs

-- ── File references, buffer, and correlation store ───────────────────────

/-- A resume file reference (`FileStoreEntry.resumeFile` /
`resumeFile` tool argument shape). -/
structure ResumeRef where
  fileId : List Char
  fileName : Option (List Char) := none
  fileType : Option (List Char) := none
  fileUrl : Option (List Char) := none
  deriving DecidableEq, Repr

/-- An intro-video file reference (`FileStoreEntry.introVideoFile` /
`introVideoFile` tool argument shape). -/
structure VideoRef where
  fileId : List Char
  fileName : Option (List Char) := none
  fileType : Option (List Char) := none
  fileUrl : Option (List Char) := none
  duration : Option Nat := none
  deriving DecidableEq, Repr

/-- `FileStoreEntry` from `shared-file-store.ts`: at most one resume and at
most one intro video. -/
structure FileStoreEntry where
  resumeFile : Option ResumeRef := none
  introVideoFile : Option VideoRef := none
  deriving DecidableEq, Repr

/-- The correlation store `fileStoreByPhone : Map<string, FileStoreEntry>`,
modelled as a function from (normalized-phone) keys to optional entries. -/
def FileStore : Type := List Char → Option FileStoreEntry

/-- `Map.prototype.set`. -/
def FileStore.set (m : FileStore) (k : List Char) (v : FileStoreEntry) :
    FileStore :=
  fun q => if q = k then some v else m q

/-- `Map.prototype.delete`. -/
def FileStore.del (m : FileStore) (k : List Char) : FileStore :=
  fun q => if q = k then none else m q

/-- The empty map. -/
def FileStore.empty : FileStore := fun _ => none

/-- The kind tag of a buffered file (`type: 'resume' | 'video'`). -/
inductive FileKind
  | resume
  | video
  deriving DecidableEq, Repr

/-- One element of a session's `pendingFiles` array
(`telegram-webhook.ts` / `whatsapp-webhook.ts` `userContexts`). -/
structure PendingFile where
  kind : FileKind
  fileId : List Char
  fileName : Option (List Char) := none
  fileType : Option (List Char) := none
  fileUrl : Option (List Char) := none
  duration : Option Nat := none
  deriving DecidableEq, Repr

/-- A per-user conversation context (`userContexts` map value). -/
structure UserContext where
  lastMessageTime : Nat
  pendingFiles : List PendingFile
  phoneNumber : Option (List Char) := none
  deriving DecidableEq, Repr

def PendingFile.toResumeRef (f : PendingFile) : ResumeRef :=
  { fileId := f.fileId, fileName := f.fileName, fileType := f.fileType,
    fileUrl := f.fileUrl }

def PendingFile.toVideoRef (f : PendingFile) : VideoRef :=
  { fileId := f.fileId, fileName := f.fileName, fileType := f.fileType,
    fileUrl := f.fileUrl, duration := f.duration }

/-- One step of the `for (const file of context.pendingFiles)` loop in
`storeFilesByPhone`: fill each kind only if not already present in the
accumulator built during this call. -/
def entryStep (acc : FileStoreEntry) (f : PendingFile) : FileStoreEntry :=
  match f.kind with
  | .resume =>
      if acc.resumeFile.isNone then { acc with resumeFile := some f.toResumeRef }
      else acc
  | .video =>
      if acc.introVideoFile.isNone then
        { acc with introVideoFile := some f.toVideoRef }
      else acc

/-- The `FileStoreEntry` built by `storeFilesByPhone` from a session's
pending files: first occurrence of each kind wins. -/
def buildEntry (fs : List PendingFile) : FileStoreEntry :=
  fs.foldl entryStep {}

/-- `storeFilesByPhone(phone, userId)` of `telegram-webhook.ts` (lines
37-74): no-op when the context is missing or its buffer is empty;
otherwise builds the entry from the buffer and `Map.set`s it under the
normalized phone (plain overwrite).  User contexts are passed explicitly;
Telegram keys them by numeric user id. -/
def storeFilesByPhoneTg (ctxs : Nat → Option UserContext)
    (phone : List Char) (userId : Nat) (store : FileStore) : FileStore :=
  match ctxs userId with
  | none => store
  | some ctx =>
      if ctx.pendingFiles.isEmpty then store
      else
        let files := buildEntry ctx.pendingFiles
        if files.resumeFile.isSome || files.introVideoFile.isSome then
          store.set (normalizePhone phone) files
        else store

/-- `storeFilesByPhone(phone, userId)` of `whatsapp-webhook.ts` (lines
36-73): identical, except contexts are keyed by the sender phone string
and the key is normalized with the WhatsApp variant. -/
def storeFilesByPhoneWA (ctxs : List Char → Option UserContext)
    (phone : List Char) (userId : List Char) (store : FileStore) :
    FileStore :=
  match ctxs userId with
  | none => store
  | some ctx =>
      if ctx.pendingFiles.isEmpty then store
      else
        let files := buildEntry ctx.pendingFiles
        if files.resumeFile.isSome || files.introVideoFile.isSome then
          store.set (normalizePhoneWA phone) files
        else store

-- ── Channel adapter text turns ───────────────────────────────────────────

/-- Externally visible actions of one text-message turn, in program
order: correlation-store publishes and the Agent Gateway invocation. -/
inductive AdapterEvent
  | publish (phone : List Char)
  | gateway (text : List Char)
  deriving DecidableEq, Repr

/-- The observable shape of one `handleTextMessage` run:
the store as it stands when the gateway is invoked, the ordered event
list, and the store after the post-gateway publish step. -/
structure TextTurn where
  storeAtGateway : FileStore
  events : List AdapterEvent
  finalStore : FileStore

/-- `handleTextMessage` of `telegram-webhook.ts` (lines 187-302),
restricted to its effect on the correlation store.  Before the gateway
call: if the session buffer is non-empty and the text contains a
phone-like substring, publish under that phone.  After the gateway call:
if the (opaque) agent response carried a phone in a tool call or result
(`extractPhoneFromResponse`, passed here as `phoneFromResponse`),
publish again under it. -/
def handleTextMessageTg (ctxs : Nat → Option UserContext) (userId : Nat)
    (text : List Char) (store : FileStore)
    (phoneFromResponse : Option (List Char)) : TextTurn :=
  let pre : FileStore × List AdapterEvent :=
    match ctxs userId with
    | some ctx =>
        if ctx.pendingFiles.isEmpty then (store, [])
        else
          match extractPhoneFromMessage text with
          | some p => (storeFilesByPhoneTg ctxs p userId store, [.publish p])
          | none => (store, [])
    | none => (store, [])
  let post : FileStore × List AdapterEvent :=
    match phoneFromResponse with
    | some q => (storeFilesByPhoneTg ctxs q userId pre.1, [.publish q])
    | none => (pre.1, [])
  { storeAtGateway := pre.1
    events := pre.2 ++ [.gateway text] ++ post.2
    finalStore := post.1 }

/-- `handleTextMessage` of `whatsapp-webhook.ts` (lines 182-305).  Unlike
Telegram, when no phone-like substring is found in the text the buffered
files are published anyway under the sender's own phone number (the
`From` field with the `whatsapp:` scheme stripped), both before the
gateway call and, absent a phone in the response, after it. -/
def handleTextMessageWA (ctxs : List Char → Option UserContext)
    (phoneNumber : List Char) (text : List Char) (store : FileStore)
    (phoneFromResponse : Option (List Char)) : TextTurn :=
  let pre : FileStore × List AdapterEvent :=
    match ctxs phoneNumber with
    | some ctx =>
        if ctx.pendingFiles.isEmpty then (store, [])
        else
          match extractPhoneFromMessage text with
          | some p =>
              (storeFilesByPhoneWA ctxs p phoneNumber store, [.publish p])
          | none =>
              (storeFilesByPhoneWA ctxs phoneNumber phoneNumber store,
               [.publish phoneNumber])
    | none => (store, [])
  let post : FileStore × List AdapterEvent :=
    match phoneFromResponse with
    | some q => (storeFilesByPhoneWA ctxs q phoneNumber pre.1, [.publish q])
    | none =>
        match ctxs phoneNumber with
        | some ctx =>
            if ctx.pendingFiles.isEmpty then (pre.1, [])
            else
              (storeFilesByPhoneWA ctxs phoneNumber phoneNumber pre.1,
               [.publish phoneNumber])
        | none => (pre.1, [])
  { storeAtGateway := pre.1
    events := pre.2 ++ [.gateway text] ++ post.2
    finalStore := post.1 }

-- ── Telegram file-upload handler ─────────────────────────────────────────

/-- `startsWith` on character lists. -/
def startsWithChars : List Char → List Char → Bool
  | [], _ => true
  | _ :: _, [] => false
  | p :: ps, c :: cs => p = c && startsWithChars ps cs

/-- JS `String.prototype.includes`. -/
def containsChars (needle : List Char) : List Char → Bool
  | [] => needle.isEmpty
  | c :: rest => startsWithChars needle (c :: rest) || containsChars needle rest

def endsWithChars (tail s : List Char) : Bool :=
  startsWithChars tail.reverse s.reverse

def toLowerList (s : List Char) : List Char :=
  s.map Char.toLower

/-- `fileInfo.fileType?.startsWith('video/')` (modelled as
`fileType?.match(/^video\//)`; the source uses `startsWith`). -/
def typeHasVideo (t : Option (List Char)) : Bool :=
  match t with
  | some s => startsWithChars "video/".toList s
  | none => false

/-- `fileInfo.fileType?.includes(needle)`. -/
def typeIncludes (needle : List Char) (t : Option (List Char)) : Bool :=
  match t with
  | some s => containsChars needle s
  | none => false

/-- `fileInfo.fileName?.match(/\.(pdf|doc|docx|rtf)$/i)`. -/
def resumeNameMatch (name : Option (List Char)) : Bool :=
  match name with
  | none => false
  | some n =>
      let ln := toLowerList n
      endsWithChars ".pdf".toList ln || endsWithChars ".doc".toList ln
        || endsWithChars ".docx".toList ln || endsWithChars ".rtf".toList ln

/-- The Telegram attachment classification tag (`type` field of
`extractFileFromMessage`'s result). -/
inductive TgFileType
  | document
  | video
  | photo
  deriving DecidableEq, Repr

/-- The attachment metadata handed to `handleFileUpload`. -/
structure TgFileInfo where
  fileId : List Char
  fileName : Option (List Char) := none
  fileType : Option (List Char) := none
  fileSize : Option Nat := none
  duration : Option Nat := none
  kind : TgFileType
  deriving Repr

/-- The distinct user-facing replies `handleFileUpload` can send, one per
branch of the handler. -/
inductive TgReply
  | sizeLimit (isVideo : Bool)
  | fetchError
  | videoReceived
  | resumeReceived
  | photoReceived
  | unknownFile
  deriving DecidableEq, Repr

/-- `MAX_DOWNLOAD_SIZE_BYTES = 18 * 1024 * 1024` (18 MB safety margin under
Telegram's ~20 MB bot download limit). -/
def MAX_DOWNLOAD_SIZE_BYTES : Nat := 18 * 1024 * 1024

/-- The result of one `handleFileUpload` run: the session's pending-file
buffer afterwards and the replies sent. -/
structure FileUploadOutcome where
  pendingFiles : List PendingFile
  replies : List TgReply
  deriving Repr

/-- `handleFileUpload` of `telegram-webhook.ts` (lines 307-422).
`fileUrlRes` is the outcome of `getFileUrl` (`none` models a thrown
error); `driveRes` is the Google Drive re-upload result (`none` keeps the
transient Telegram URL).  An attachment whose reported size exceeds the
threshold is rejected with a size-limit message before any buffering. -/
def handleFileUploadTg (ctx : UserContext) (info : TgFileInfo)
    (fileUrlRes : Option (List Char)) (driveRes : Option (List Char)) :
    FileUploadOutcome :=
  if (match info.fileSize with
      | some n => decide (n > MAX_DOWNLOAD_SIZE_BYTES)
      | none => false) then
    { pendingFiles := ctx.pendingFiles
      replies := [.sizeLimit (info.kind = .video || typeHasVideo info.fileType)] }
  else
    match fileUrlRes with
    | none => { pendingFiles := ctx.pendingFiles, replies := [.fetchError] }
    | some url =>
        let fileUrl := driveRes.getD url
        if info.kind = .video || typeHasVideo info.fileType then
          { pendingFiles := ctx.pendingFiles
              ++ [{ kind := .video, fileId := info.fileId,
                    fileName := info.fileName, fileType := info.fileType,
                    fileUrl := some fileUrl, duration := info.duration }]
            replies := [.videoReceived] }
        else if info.kind = .document
            || typeIncludes "pdf".toList info.fileType
            || typeIncludes "word".toList info.fileType
            || typeIncludes "document".toList info.fileType
            || resumeNameMatch info.fileName then
          { pendingFiles := ctx.pendingFiles
              ++ [{ kind := .resume, fileId := info.fileId,
                    fileName := info.fileName, fileType := info.fileType,
                    fileUrl := some fileUrl }]
            replies := [.resumeReceived] }
        else if info.kind = .photo then
          { pendingFiles := ctx.pendingFiles, replies := [.photoReceived] }
        else
          { pendingFiles := ctx.pendingFiles, replies := [.unknownFile] }

-- ── Submission finalizer (`submitCandidateApplicationTool.execute`) ──────

/-- `nextSteps[0]`. -/
def reviewMsg : List Char :=
  "Our recruitment team will review your application within 2-3 business days".toList

/-- `nextSteps[1]` when an email was given. -/
def emailNextMsg : List Char :=
  "You will receive an email with next steps and required documents".toList

/-- `nextSteps[1]` when no email was given. -/
def contactViaMsg (method : List Char) : List Char :=
  "We will contact you via ".toList ++ method
    ++ " with next steps and required documents".toList

/-- Reminder pushed when `!data.resumeFile`. -/
def resumeReminderMsg : List Char :=
  "Please send us your resume/CV when ready".toList

/-- Reminder pushed when `!data.introVideoFile`. -/
def videoReminderMsg : List Char :=
  "Please record and send a 2-3 minute introduction video about yourself".toList

def dbsMsg : List Char :=
  "Prepare your DBS/criminal background check documents".toList

def referencesMsg : List Char :=
  "Gather references from previous employers".toList

def certificatesMsg : List Char :=
  "Have your educational certificates ready for verification".toList

def thankYouMsg (fullName : List Char) : List Char :=
  "Thank you, ".toList ++ fullName
    ++ "! Your application has been submitted successfully.".toList

/-- The fields of the `submit-candidate-application` tool input that the
file-correlation logic and the returned acknowledgment depend on.  The
remaining fields (languages, experience, qualifications, …) are forwarded
opaquely to the CRM and never read by this logic. -/
structure SubmitInput where
  fullName : List Char
  email : Option (List Char) := none
  phone : List Char
  preferredContactMethod : List Char
  resumeFile : Option ResumeRef := none
  introVideoFile : Option VideoRef := none
  deriving Repr

/-- `ensureFileUrl` for the resume: if the file lacks a `fileUrl`, try to
resolve one via `getFileUrl(fileId)` (the resolver is the external
Telegram file API, passed as an environment; `none` models a thrown
error, in which case the file is returned unchanged). -/
def ensureResumeUrl (resolver : List Char → Option (List Char))
    (f : Option ResumeRef) : Option ResumeRef :=
  match f with
  | none => none
  | some r =>
      if r.fileUrl.isSome then some r
      else
        match resolver r.fileId with
        | some url => some { r with fileUrl := some url }
        | none => some r

/-- `ensureFileUrl` for the intro video. -/
def ensureVideoUrl (resolver : List Char → Option (List Char))
    (f : Option VideoRef) : Option VideoRef :=
  match f with
  | none => none
  | some v =>
      if v.fileUrl.isSome then some v
      else
        match resolver v.fileId with
        | some url => some { v with fileUrl := some url }
        | none => some v

/-- The observable outcome of one `execute` call: the tool's return value
plus the file references it resolved (`finalResumeFile` /
`finalIntroVideoFile` merge explicit and stored ones; `crm*` are what is
forwarded to `createCandidateLead` after URL resolution). -/
structure SubmitOutcome where
  success : Bool
  message : List Char
  nextSteps : List (List Char)
  finalResumeFile : Option ResumeRef
  finalIntroVideoFile : Option VideoRef
  crmResumeFile : Option ResumeRef
  crmIntroVideoFile : Option VideoRef
  deriving Repr

/-- `submitCandidateApplicationTool.execute` (`candidate-intake-tool.ts`
lines 198-296), restricted to its effect on the correlation store and its
returned value.  Normalizes the phone, injects stored files for each kind
not explicitly supplied, deletes the store entry whenever one existed,
resolves missing URLs, and returns `success: true` with the reminder list
(the reminders test `data.resumeFile` / `data.introVideoFile`, the raw
tool arguments). -/
def submitCandidateApplication (resolver : List Char → Option (List Char))
    (input : SubmitInput) (store : FileStore) : SubmitOutcome × FileStore :=
  let normalizedPhone := normalizePhone input.phone
  let stored := store normalizedPhone
  let finalResumeFile :=
    match input.resumeFile, stored with
    | some r, _ => some r
    | none, some e => e.resumeFile
    | none, none => none
  let finalIntroVideoFile :=
    match input.introVideoFile, stored with
    | some v, _ => some v
    | none, some e => e.introVideoFile
    | none, none => none
  let store' :=
    match stored with
    | some _ => store.del normalizedPhone
    | none => store
  let nextSteps :=
    [reviewMsg,
     match input.email with
     | some _ => emailNextMsg
     | none => contactViaMsg input.preferredContactMethod]
    ++ (if input.resumeFile.isNone then [resumeReminderMsg] else [])
    ++ (if input.introVideoFile.isNone then [videoReminderMsg] else [])
    ++ [dbsMsg, referencesMsg, certificatesMsg]
  ({ success := true
     message := thankYouMsg input.fullName
     nextSteps := nextSteps
     finalResumeFile := finalResumeFile
     finalIntroVideoFile := finalIntroVideoFile
     crmResumeFile := ensureResumeUrl resolver finalResumeFile
     crmIntroVideoFile := ensureVideoUrl resolver finalIntroVideoFile },
   store')

-- ── Candidate database (`db.ts` mysql + normalized column / `db-pg.ts`) ─

/-- A row of the `candidates` table:
`(id, name, phone, normalized_phone, created_at)`. -/
structure CandidateRow where
  id : Nat
  name : List Char
  phone : List Char
  normalized_phone : List Char
  deriving DecidableEq, Repr

/-- `saveCandidate`: inserts a row storing the raw phone together with
`normalizePhone(phone)` in the `normalized_phone` column. -/
def saveCandidate (db : List CandidateRow) (id : Nat)
    (name phone : List Char) : List CandidateRow :=
  db ++ [{ id := id, name := name, phone := phone,
           normalized_phone := normalizePhone phone }]

/-- `findCandidate({ phone })`:
`SELECT … WHERE normalized_phone = ? LIMIT 1` with the normalized query
phone — the first row (in insertion order) whose `normalized_phone`
column equals `normalizePhone(q)`. -/
def findCandidateByPhone (db : List CandidateRow) (q : List Char) :
    Option CandidateRow :=
  db.find? (fun r => decide (r.normalized_phone = normalizePhone q))

-- ════════════════════════  THEOREMS  ════════════════════════════════════

-- ── Basic lemmas about the normalizer ────────────────────────────────────

theorem stripSeparators_all (s : List Char) :
    ∀ c ∈ stripSeparators s, isSepChar c = false := by
  intro c hc
  have := List.of_mem_filter hc
  simpa using this

theorem stripSeparators_eq_self (s : List Char)
    (h : ∀ c ∈ s, isSepChar c = false) :
    stripSeparators s = s := by
  simp only [stripSeparators]
  apply List.filter_eq_self.mpr
  intro a ha
  simp [h a ha]

theorem not_starts00_plus (r : List Char) : starts00 ('+' :: r) = false := rfl

theorem collapse00_chars (s : List Char) :
    ∀ c ∈ collapse00 s, c = '+' ∨ c ∈ s := by
  intro c hc
  unfold collapse00 at hc
  split at hc
  · rcases List.mem_cons.mp hc with h | h
    · exact Or.inl h
    · exact Or.inr (List.drop_subset 2 s h)
  · exact Or.inr hc

/-- Normalizer output never begins with `00`. -/
theorem normalizePhone_not_00 (s : List Char) :
    starts00 (normalizePhone s) = false := by
  unfold normalizePhone collapse00
  split
  · exact not_starts00_plus _
  · rename_i h
    simpa using h

theorem collapse00_of_not_00 (s : List Char)
    (h : starts00 s = false) : collapse00 s = s := by
  simp [collapse00, h]

theorem stripSeparators_collapse00_strip (s : List Char) :
    stripSeparators (collapse00 (stripSeparators s))
      = collapse00 (stripSeparators s) := by
  apply stripSeparators_eq_self
  intro c hc
  rcases collapse00_chars (stripSeparators s) c hc with h | h
  · subst h; rfl
  · exact stripSeparators_all s c h

/-- The generic normalizer is idempotent. -/
theorem normalizePhone_idem (s : List Char) :
    normalizePhone (normalizePhone s) = normalizePhone s := by
  show collapse00 (stripSeparators (normalizePhone s)) = normalizePhone s
  rw [show stripSeparators (normalizePhone s) = normalizePhone s from
    stripSeparators_collapse00_strip s]
  exact collapse00_of_not_00 _ (normalizePhone_not_00 s)

theorem stripWaScheme_of_no_scheme (s : List Char)
    (h : hasWaScheme s = false) : stripWaScheme s = s := by
  simp [stripWaScheme, h]

-- ── Lemmas about the publish step ────────────────────────────────────────

theorem entryStep_preserves_resume (acc : FileStoreEntry) (f : PendingFile)
    (r : ResumeRef) (h : acc.resumeFile = some r) :
    (entryStep acc f).resumeFile = some r := by
  unfold entryStep
  cases hk : f.kind <;> simp only [hk] <;> split <;> simp_all

theorem entryStep_preserves_video (acc : FileStoreEntry) (f : PendingFile)
    (v : VideoRef) (h : acc.introVideoFile = some v) :
    (entryStep acc f).introVideoFile = some v := by
  unfold entryStep
  cases hk : f.kind <;> simp only [hk] <;> split <;> simp_all

theorem foldl_entryStep_preserves_resume (fs : List PendingFile)
    (acc : FileStoreEntry) (r : ResumeRef) (h : acc.resumeFile = some r) :
    (fs.foldl entryStep acc).resumeFile = some r := by
  induction fs generalizing acc with
  | nil => simpa using h
  | cons f t ih =>
      simp only [List.foldl_cons]
      exact ih _ (entryStep_preserves_resume acc f r h)

theorem foldl_entryStep_preserves_video (fs : List PendingFile)
    (acc : FileStoreEntry) (v : VideoRef) (h : acc.introVideoFile = some v) :
    (fs.foldl entryStep acc).introVideoFile = some v := by
  induction fs generalizing acc with
  | nil => simpa using h
  | cons f t ih =>
      simp only [List.foldl_cons]
      exact ih _ (entryStep_preserves_video acc f v h)

/-- First-seen-wins within one call: the resume derived from an extended
buffer `b ++ more` is the resume derived from `b`, once `b` has one. -/
theorem buildEntry_append_resume (b more : List PendingFile) (r : ResumeRef)
    (h : (buildEntry b).resumeFile = some r) :
    (buildEntry (b ++ more)).resumeFile = some r := by
  unfold buildEntry at *
  rw [List.foldl_append]
  exact foldl_entryStep_preserves_resume more _ r h

theorem buildEntry_append_video (b more : List PendingFile) (v : VideoRef)
    (h : (buildEntry b).introVideoFile = some v) :
    (buildEntry (b ++ more)).introVideoFile = some v := by
  unfold buildEntry at *
  rw [List.foldl_append]
  exact foldl_entryStep_preserves_video more _ v h

theorem collapse00_cons00 (r : List Char) :
    collapse00 ('0' :: '0' :: r) = '+' :: r := rfl

theorem collapse00_consPlus (r : List Char) :
    collapse00 ('+' :: r) = '+' :: r := rfl

-- ── C5: oversized attachments are rejected, never buffered ───────────────

/-- C5: an inbound Telegram attachment whose reported size exceeds the
18 MB threshold leaves the session's pending-file buffer unchanged, and
the only reply sent is the size-limit message asking for a smaller file
or an external link. -/
theorem claim_C5 (ctx : UserContext) (info : TgFileInfo)
    (fileUrlRes driveRes : Option (List Char)) (n : Nat)
    (hsz : info.fileSize = some n) (hbig : n > MAX_DOWNLOAD_SIZE_BYTES) :
    (handleFileUploadTg ctx info fileUrlRes driveRes).pendingFiles
        = ctx.pendingFiles
    ∧ (handleFileUploadTg ctx info fileUrlRes driveRes).replies
        = [TgReply.sizeLimit
            (info.kind = TgFileType.video || typeHasVideo info.fileType)] := by
  constructor <;> simp [handleFileUploadTg, hsz, hbig]

theorem claim_C5_witness :
    let info : TgFileInfo :=
      { fileId := "big-video".toList, fileType := some "video/mp4".toList,
        fileSize := some 25000000, kind := TgFileType.video }
    let ctx : UserContext := { lastMessageTime := 0, pendingFiles := [] }
    info.fileSize = some 25000000 ∧ 25000000 > MAX_DOWNLOAD_SIZE_BYTES
    ∧ (handleFileUploadTg ctx info none none).pendingFiles = ctx.pendingFiles
    ∧ (handleFileUploadTg ctx info none none).replies
        = [TgReply.sizeLimit
            (info.kind = TgFileType.video || typeHasVideo info.fileType)] := by
  refine ⟨rfl, by decide, ?_⟩
  exact claim_C5 _ _ none none 25000000 rfl (by decide)

-- ── C6: idempotence of the normalizer ────────────────────────────────────

/-- C6 counterexample: the channel (WhatsApp) variant is not idempotent.
On the input `whatsapp:whatsapp:+79991234567` the first application
strips only one transport prefix, leaving a string that still begins with
`whatsapp:`, which a second application strips again. -/
theorem claim_C6_counterexample :
    normalizePhoneWA
        (normalizePhoneWA "whatsapp:whatsapp:+79991234567".toList)
      ≠ normalizePhoneWA "whatsapp:whatsapp:+79991234567".toList := by
  decide

/-- C6 (amended): the generic normalizer is idempotent on every string;
the channel variant is idempotent exactly on inputs whose normalized form
does not itself still begin with the `whatsapp:` transport prefix (true
of every input carrying at most one prefix). -/
theorem claim_C6_amended (x : List Char) :
    normalizePhone (normalizePhone x) = normalizePhone x
    ∧ (hasWaScheme (normalizePhoneWA x) = false →
        normalizePhoneWA (normalizePhoneWA x) = normalizePhoneWA x) := by
  refine ⟨normalizePhone_idem x, fun h => ?_⟩
  unfold normalizePhoneWA at h ⊢
  rw [stripWaScheme_of_no_scheme _ h]
  exact normalizePhone_idem _

theorem claim_C6_amended_witness :
    hasWaScheme (normalizePhoneWA "whatsapp:+7 999 123 45 67".toList) = false
    ∧ normalizePhoneWA (normalizePhoneWA "whatsapp:+7 999 123 45 67".toList)
        = normalizePhoneWA "whatsapp:+7 999 123 45 67".toList :=
  ⟨by decide, (claim_C6_amended "whatsapp:+7 999 123 45 67".toList).2 (by decide)⟩

-- ── C7: normalization is insensitive to separators and 00-vs-+ ───────────

/-- C7: two phone strings that differ only by inserted/removed whitespace,
hyphens, parentheses or dots (same string once separators are stripped),
or additionally by writing the leading international prefix as `00`
instead of `+`, normalize to the same output. -/
theorem claim_C7 (x y : List Char)
    (h : stripSeparators x = stripSeparators y
      ∨ (∃ r, stripSeparators x = '0' :: '0' :: r
            ∧ stripSeparators y = '+' :: r)
      ∨ (∃ r, stripSeparators x = '+' :: r
            ∧ stripSeparators y = '0' :: '0' :: r)) :
    normalizePhone x = normalizePhone y := by
  unfold normalizePhone
  rcases h with h | ⟨r, hx, hy⟩ | ⟨r, hx, hy⟩
  · rw [h]
  · rw [hx, hy, collapse00_cons00, collapse00_consPlus]
  · rw [hx, hy, collapse00_cons00, collapse00_consPlus]

theorem claim_C7_witness :
    (stripSeparators "00 7(999) 123-45.67".toList
        = '0' :: '0' :: "79991234567".toList
      ∧ stripSeparators "+7 999 123 45 67".toList
        = '+' :: "79991234567".toList)
    ∧ normalizePhone "00 7(999) 123-45.67".toList
        = normalizePhone "+7 999 123 45 67".toList :=
  ⟨⟨by decide, by decide⟩,
   claim_C7 _ _ (Or.inr (Or.inl ⟨"79991234567".toList, by decide, by decide⟩))⟩

-- ── C8: candidate lookup is by normalized phone ──────────────────────────

/-- C8: after `saveCandidate` with raw phone `p` (which stores
`normalizePhone p` in the `normalized_phone` column), `findCandidate`
with any query phone `q` normalizing to the same key returns that
candidate's row.  The hypothesis that no earlier row already occupies the
key reflects the schema's use of `normalized_phone` as the unique lookup
key (`LIMIT 1` returns the first matching row in insertion order). -/
theorem claim_C8 (db : List CandidateRow) (id : Nat) (name p q : List Char)
    (hfresh : ∀ row ∈ db, row.normalized_phone ≠ normalizePhone p)
    (hq : normalizePhone q = normalizePhone p) :
    findCandidateByPhone (saveCandidate db id name p) q
      = some { id := id, name := name, phone := p,
               normalized_phone := normalizePhone p } := by
  unfold findCandidateByPhone saveCandidate
  induction db with
  | nil => simp [List.find?, hq]
  | cons row t ih =>
      have hrow : row.normalized_phone ≠ normalizePhone p :=
        hfresh row (List.mem_cons_self row t)
      have : decide (row.normalized_phone = normalizePhone q) = false := by
        rw [hq]
        simpa using hrow
      simp only [List.cons_append, List.find?, this]
      exact ih (fun r hr => hfresh r (List.mem_cons_of_mem row hr))

theorem claim_C8_witness :
    (∀ row ∈ ([] : List CandidateRow),
        row.normalized_phone ≠ normalizePhone "8 999 123-45-67".toList)
    ∧ normalizePhone "89991234567".toList
        = normalizePhone "8 999 123-45-67".toList
    ∧ findCandidateByPhone
        (saveCandidate [] 1 "Anna".toList "8 999 123-45-67".toList)
        "89991234567".toList
      = some { id := 1, name := "Anna".toList,
               phone := "8 999 123-45-67".toList,
               normalized_phone := normalizePhone "8 999 123-45-67".toList } := by
  refine ⟨by simp, by decide, ?_⟩
  exact claim_C8 [] 1 "Anna".toList "8 999 123-45-67".toList
    "89991234567".toList (by simp) (by decide)

-- ── C1: read-then-delete, at-most-once handoff ───────────────────────────

/-- C1: submitting twice in a row for the same phone with no intervening
publish injects the stored entry (resume and/or video) on the first call,
deletes the entry as part of that call, and injects nothing on the
second call. -/
theorem claim_C1 (resolver : List Char → Option (List Char))
    (input : SubmitInput) (store : FileStore) (e : FileStoreEntry)
    (hr : input.resumeFile = none) (hv : input.introVideoFile = none)
    (hs : store (normalizePhone input.phone) = some e) :
    (submitCandidateApplication resolver input store).1.finalResumeFile
        = e.resumeFile
    ∧ (submitCandidateApplication resolver input store).1.finalIntroVideoFile
        = e.introVideoFile
    ∧ (submitCandidateApplication resolver input store).2
        (normalizePhone input.phone) = none
    ∧ (submitCandidateApplication resolver input
        ((submitCandidateApplication resolver input store).2)).1.finalResumeFile
        = none
    ∧ (submitCandidateApplication resolver input
        ((submitCandidateApplication resolver input store).2)).1.finalIntroVideoFile
        = none := by
  refine ⟨?_, ?_, ?_, ?_, ?_⟩ <;>
    simp [submitCandidateApplication, hr, hv, hs, FileStore.del]

theorem claim_C1_witness :
    let e : FileStoreEntry :=
      { resumeFile := some { fileId := "cv".toList },
        introVideoFile := some { fileId := "vid".toList } }
    let input : SubmitInput :=
      { fullName := "Anna".toList, phone := "+7 999 123 45 67".toList,
        preferredContactMethod := "telegram".toList }
    let store : FileStore :=
      FileStore.empty.set (normalizePhone "+7 999 123 45 67".toList) e
    (submitCandidateApplication (fun _ => none) input store).1.finalResumeFile
        = e.resumeFile
    ∧ (submitCandidateApplication (fun _ => none) input store).2
        (normalizePhone input.phone) = none
    ∧ (submitCandidateApplication (fun _ => none) input
        ((submitCandidateApplication (fun _ => none) input store).2)).1.finalResumeFile
        = none := by
  intro e input store
  obtain ⟨h1, _, h3, h4, _⟩ :=
    claim_C1 (fun _ => none) input store e rfl rfl (by decide)
  exact ⟨h1, h3, h4⟩

-- ── C3: explicit resume wins, store entry still drained ──────────────────

/-- C3: when the tool call explicitly supplies a resume and the store
holds an entry (with a different resume) for the same normalized phone,
the submission uses the explicit resume and the store entry is removed
nonetheless. -/
theorem claim_C3 (resolver : List Char → Option (List Char))
    (input : SubmitInput) (store : FileStore) (e : FileStoreEntry)
    (r : ResumeRef)
    (hr : input.resumeFile = some r)
    (hs : store (normalizePhone input.phone) = some e)
    (hdiff : e.resumeFile ≠ some r) :
    (submitCandidateApplication resolver input store).1.finalResumeFile = some r
    ∧ (submitCandidateApplication resolver input store).2
        (normalizePhone input.phone) = none := by
  constructor <;> simp [submitCandidateApplication, hr, hs, FileStore.del]

theorem claim_C3_witness :
    let rExp : ResumeRef := { fileId := "explicit-cv".toList }
    let e : FileStoreEntry := { resumeFile := some { fileId := "stored-cv".toList } }
    let input : SubmitInput :=
      { fullName := "Anna".toList, phone := "+79991234567".toList,
        preferredContactMethod := "telegram".toList, resumeFile := some rExp }
    let store : FileStore :=
      FileStore.empty.set (normalizePhone "+79991234567".toList) e
    (submitCandidateApplication (fun _ => none) input store).1.finalResumeFile
        = some rExp
    ∧ (submitCandidateApplication (fun _ => none) input store).2
        (normalizePhone input.phone) = none := by
  intro rExp e input store
  exact claim_C3 (fun _ => none) input store e rExp rfl (by decide) (by decide)

-- ── C9: reminders track the raw tool arguments, not the final files ──────

theorem contact_ne_resumeReminder (m : List Char) :
    resumeReminderMsg ≠ contactViaMsg m := by
  intro h
  unfold resumeReminderMsg contactViaMsg at h
  rw [show ("We will contact you via ".toList : List Char)
        = 'W' :: "e will contact you via ".toList from rfl,
      show ("Please send us your resume/CV when ready".toList : List Char)
        = 'P' :: "lease send us your resume/CV when ready".toList from rfl] at h
  simp [List.cons_append] at h

theorem contact_ne_videoReminder (m : List Char) :
    videoReminderMsg ≠ contactViaMsg m := by
  intro h
  unfold videoReminderMsg contactViaMsg at h
  rw [show ("We will contact you via ".toList : List Char)
        = 'W' :: "e will contact you via ".toList from rfl,
      show ("Please record and send a 2-3 minute introduction video about yourself".toList : List Char)
        = 'P' :: "lease record and send a 2-3 minute introduction video about yourself".toList from rfl] at h
  simp [List.cons_append] at h

/-- C9 counterexample: with no explicit resume in the tool call but a
resume present in the correlation store, the finalized application does
have a resume attached (injected), yet the "send resume" reminder is
still returned — refuting "included exactly when the finalized
application still has no resume file attached". -/
theorem claim_C9_counterexample :
    let store : FileStore :=
      FileStore.empty.set (normalizePhone "+79991234567".toList)
        { resumeFile := some { fileId := "stored-cv".toList } }
    let input : SubmitInput :=
      { fullName := "Anna".toList, phone := "+79991234567".toList,
        preferredContactMethod := "telegram".toList }
    (submitCandidateApplication (fun _ => none) input store).1.finalResumeFile.isSome
        = true
    ∧ resumeReminderMsg
        ∈ (submitCandidateApplication (fun _ => none) input store).1.nextSteps := by
  refine ⟨by decide, ?_⟩
  simp [submitCandidateApplication]

/-- C9 (amended): the finalizer always returns success with follow-up
reminders, and the "send resume" (resp. introduction-video) reminder is
included exactly when no resume (resp. video) was explicitly supplied in
the tool call — regardless of any file injected from the Correlation
Store. -/
theorem claim_C9_amended (resolver : List Char → Option (List Char))
    (input : SubmitInput) (store : FileStore) :
    (submitCandidateApplication resolver input store).1.success = true
    ∧ (resumeReminderMsg
          ∈ (submitCandidateApplication resolver input store).1.nextSteps
        ↔ input.resumeFile = none)
    ∧ (videoReminderMsg
          ∈ (submitCandidateApplication resolver input store).1.nextSteps
        ↔ input.introVideoFile = none) := by
  obtain ⟨fn, em, ph, pcm, rf, vf⟩ := input
  refine ⟨rfl, ?_, ?_⟩ <;>
    cases em <;> cases rf <;> cases vf <;>
      simp [submitCandidateApplication,
        contact_ne_resumeReminder, contact_ne_videoReminder,
        (by decide : resumeReminderMsg ≠ reviewMsg),
        (by decide : resumeReminderMsg ≠ emailNextMsg),
        (by decide : resumeReminderMsg ≠ videoReminderMsg),
        (by decide : resumeReminderMsg ≠ dbsMsg),
        (by decide : resumeReminderMsg ≠ referencesMsg),
        (by decide : resumeReminderMsg ≠ certificatesMsg),
        (by decide : videoReminderMsg ≠ reviewMsg),
        (by decide : videoReminderMsg ≠ emailNextMsg),
        (by decide : videoReminderMsg ≠ resumeReminderMsg),
        (by decide : videoReminderMsg ≠ dbsMsg),
        (by decide : videoReminderMsg ≠ referencesMsg),
        (by decide : videoReminderMsg ≠ certificatesMsg)]

-- ── Shared lemmas about the publish step's store writes ──────────────────

theorem buildEntry_cons_some (f : PendingFile) (t : List PendingFile) :
    (buildEntry (f :: t)).resumeFile.isSome = true
    ∨ (buildEntry (f :: t)).introVideoFile.isSome = true := by
  unfold buildEntry
  simp only [List.foldl_cons]
  cases hk : f.kind
  · left
    have h0 : (entryStep {} f).resumeFile = some f.toResumeRef := by
      simp [entryStep, hk]
    rw [foldl_entryStep_preserves_resume t _ _ h0]
    rfl
  · right
    have h0 : (entryStep {} f).introVideoFile = some f.toVideoRef := by
      simp [entryStep, hk]
    rw [foldl_entryStep_preserves_video t _ _ h0]
    rfl

theorem buildEntry_isSome (fs : List PendingFile) (h : fs ≠ []) :
    ((buildEntry fs).resumeFile.isSome
      || (buildEntry fs).introVideoFile.isSome) = true := by
  cases fs with
  | nil => exact absurd rfl h
  | cons f t => rcases buildEntry_cons_some f t with h' | h' <;> simp [h']

theorem isEmpty_eq_false_of_ne_nil {α : Type} {l : List α} (h : l ≠ []) :
    l.isEmpty = false := by
  cases l with
  | nil => exact absurd rfl h
  | cons a t => rfl

theorem storeFilesByPhoneTg_lookup (ctxs : Nat → Option UserContext)
    (phone : List Char) (userId : Nat) (store : FileStore)
    (ctx : UserContext) (hctx : ctxs userId = some ctx)
    (hbuf : ctx.pendingFiles ≠ []) :
    (storeFilesByPhoneTg ctxs phone userId store) (normalizePhone phone)
      = some (buildEntry ctx.pendingFiles) := by
  simp [storeFilesByPhoneTg, hctx, isEmpty_eq_false_of_ne_nil hbuf,
    buildEntry_isSome ctx.pendingFiles hbuf, FileStore.set]

theorem storeFilesByPhoneWA_lookup (ctxs : List Char → Option UserContext)
    (phone userId : List Char) (store : FileStore)
    (ctx : UserContext) (hctx : ctxs userId = some ctx)
    (hbuf : ctx.pendingFiles ≠ []) :
    (storeFilesByPhoneWA ctxs phone userId store) (normalizePhoneWA phone)
      = some (buildEntry ctx.pendingFiles) := by
  simp [storeFilesByPhoneWA, hctx, isEmpty_eq_false_of_ne_nil hbuf,
    buildEntry_isSome ctx.pendingFiles hbuf, FileStore.set]

-- ── C2: publish is an overwrite, not an upsert ───────────────────────────

/-- C2 counterexample: the store already holds resume `fileA` for the
phone; a publish from a session whose buffer holds only resume `fileB`
replaces the existing reference with the different, later one
(`Map.set` overwrites the whole entry). -/
theorem claim_C2_counterexample :
    let entryA : FileStoreEntry :=
      { resumeFile := some { fileId := "fileA".toList } }
    let entryB : FileStoreEntry :=
      { resumeFile := some { fileId := "fileB".toList } }
    let key := normalizePhone "+79991234567".toList
    let store : FileStore := FileStore.empty.set key entryA
    let ctxs : Nat → Option UserContext := fun u =>
      if u = 1 then
        some { lastMessageTime := 0,
               pendingFiles := [{ kind := FileKind.resume,
                                  fileId := "fileB".toList }] }
      else none
    store key = some entryA
    ∧ (storeFilesByPhoneTg ctxs "+79991234567".toList 1 store) key
        = some entryB
    ∧ entryA ≠ entryB := by
  refine ⟨by decide, by decide, by decide⟩

/-- C2 (amended): first-seen-wins holds relative to the session's own
pending-file buffer, not relative to a pre-existing store entry: publish
overwrites the phone's entry with one derived from the buffer, in which
the first occurrence of each kind wins — so as long as the buffer is only
appended to (it is never cleared by publish or consume), republishing
never replaces the session's first-seen resume (resp. video) reference. -/
theorem claim_C2_amended (ctxs : Nat → Option UserContext)
    (phone : List Char) (userId : Nat) (store : FileStore)
    (ctx : UserContext) (b more : List PendingFile)
    (hctx : ctxs userId = some ctx)
    (hbuf : ctx.pendingFiles = b ++ more)
    (hb : b ≠ []) :
    ∃ e, (storeFilesByPhoneTg ctxs phone userId store) (normalizePhone phone)
          = some e
      ∧ (∀ r, (buildEntry b).resumeFile = some r → e.resumeFile = some r)
      ∧ (∀ v, (buildEntry b).introVideoFile = some v →
            e.introVideoFile = some v) := by
  have hne : ctx.pendingFiles ≠ [] := by
    rw [hbuf]
    cases b with
    | nil => exact absurd rfl hb
    | cons f t => simp
  refine ⟨buildEntry ctx.pendingFiles,
    storeFilesByPhoneTg_lookup ctxs phone userId store ctx hctx hne,
    ?_, ?_⟩
  · intro r hr
    rw [hbuf]
    exact buildEntry_append_resume b more r hr
  · intro v hv
    rw [hbuf]
    exact buildEntry_append_video b more v hv

theorem claim_C2_amended_witness :
    let pfA : PendingFile := { kind := FileKind.resume, fileId := "fileA".toList }
    let pfB : PendingFile := { kind := FileKind.resume, fileId := "fileB".toList }
    let ctx : UserContext := { lastMessageTime := 0, pendingFiles := [pfA, pfB] }
    let ctxs : Nat → Option UserContext := fun u =>
      if u = 1 then some ctx else none
    ∃ e, (storeFilesByPhoneTg ctxs "+79991234567".toList 1 FileStore.empty)
          (normalizePhone "+79991234567".toList) = some e
      ∧ e.resumeFile = some pfA.toResumeRef := by
  intro pfA pfB ctx ctxs
  obtain ⟨e, he, hres, _⟩ :=
    claim_C2_amended ctxs "+79991234567".toList 1 FileStore.empty ctx
      [pfA] [pfB] (by decide) (by decide) (by decide)
  exact ⟨e, he, hres pfA.toResumeRef (by decide)⟩

-- ── C4: Telegram publishes before the gateway call ───────────────────────

/-- C4: on a Telegram text message whose text contains a phone-like
substring (as matched by `extractPhoneFromMessage`) and whose session
buffer is non-empty, the publish event strictly precedes the gateway
event, and at gateway-invocation time the correlation store already maps
the normalized phone to the entry built from the buffered files. -/
theorem claim_C4 (ctxs : Nat → Option UserContext) (userId : Nat)
    (text : List Char) (store : FileStore) (resp : Option (List Char))
    (ctx : UserContext) (p : List Char)
    (hctx : ctxs userId = some ctx)
    (hbuf : ctx.pendingFiles ≠ [])
    (hp : extractPhoneFromMessage text = some p) :
    (∃ rest, (handleTextMessageTg ctxs userId text store resp).events
        = AdapterEvent.publish p :: AdapterEvent.gateway text :: rest)
    ∧ (handleTextMessageTg ctxs userId text store resp).storeAtGateway
        (normalizePhone p) = some (buildEntry ctx.pendingFiles) := by
  have hne := isEmpty_eq_false_of_ne_nil hbuf
  constructor
  · cases resp with
    | none =>
        refine ⟨[], ?_⟩
        simp [handleTextMessageTg, hctx, hne, hp]
    | some q =>
        refine ⟨[AdapterEvent.publish q], ?_⟩
        simp [handleTextMessageTg, hctx, hne, hp]
  · have hgw : (handleTextMessageTg ctxs userId text store resp).storeAtGateway
        = storeFilesByPhoneTg ctxs p userId store := by
      simp [handleTextMessageTg, hctx, hne, hp]
    rw [hgw]
    exact storeFilesByPhoneTg_lookup ctxs p userId store ctx hctx hbuf

theorem claim_C4_witness :
    let ctx : UserContext :=
      { lastMessageTime := 0,
        pendingFiles := [{ kind := FileKind.resume, fileId := "cv".toList },
                         { kind := FileKind.video, fileId := "vid".toList }] }
    let ctxs : Nat → Option UserContext := fun u =>
      if u = 7 then some ctx else none
    (∃ rest,
        (handleTextMessageTg ctxs 7 "+7 999 123 45 67".toList
            FileStore.empty none).events
          = AdapterEvent.publish "+7 999 123 45 67".toList
              :: AdapterEvent.gateway "+7 999 123 45 67".toList :: rest)
    ∧ (handleTextMessageTg ctxs 7 "+7 999 123 45 67".toList
          FileStore.empty none).storeAtGateway
        (normalizePhone "+7 999 123 45 67".toList)
        = some (buildEntry ctx.pendingFiles) := by
  intro ctx ctxs
  exact claim_C4 ctxs 7 "+7 999 123 45 67".toList FileStore.empty none ctx
    "+7 999 123 45 67".toList (by decide) (by decide) (by decide)

-- ── C10: WhatsApp publishes under the sender's own number ────────────────

/-- C10: on a WhatsApp text message with a non-empty session buffer and no
phone-like substring in the text, the adapter still publishes — under the
sender's transport phone (the `From` field with `whatsapp:` stripped,
normalized) — strictly before invoking the gateway. -/
theorem claim_C10 (ctxs : List Char → Option UserContext)
    (from_ text : List Char) (store : FileStore)
    (resp : Option (List Char)) (ctx : UserContext)
    (hctx : ctxs (extractPhoneFromWhatsApp from_) = some ctx)
    (hbuf : ctx.pendingFiles ≠ [])
    (hno : extractPhoneFromMessage text = none)
    (hsingle : hasWaScheme (extractPhoneFromWhatsApp from_) = false) :
    (∃ rest, (handleTextMessageWA ctxs (extractPhoneFromWhatsApp from_)
          text store resp).events
        = AdapterEvent.publish (extractPhoneFromWhatsApp from_)
            :: AdapterEvent.gateway text :: rest)
    ∧ (handleTextMessageWA ctxs (extractPhoneFromWhatsApp from_)
          text store resp).storeAtGateway
        (normalizePhone (stripWaScheme from_))
        = some (buildEntry ctx.pendingFiles) := by
  have hne := isEmpty_eq_false_of_ne_nil hbuf
  have hkey : normalizePhoneWA (extractPhoneFromWhatsApp from_)
      = normalizePhone (stripWaScheme from_) := by
    unfold normalizePhoneWA extractPhoneFromWhatsApp at *
    rw [stripWaScheme_of_no_scheme _ hsingle]
  constructor
  · cases resp with
    | none =>
        refine ⟨[AdapterEvent.publish (extractPhoneFromWhatsApp from_)], ?_⟩
        simp [handleTextMessageWA, hctx, hne, hno]
    | some q =>
        refine ⟨[AdapterEvent.publish q], ?_⟩
        simp [handleTextMessageWA, hctx, hne, hno]
  · have hgw : (handleTextMessageWA ctxs (extractPhoneFromWhatsApp from_)
          text store resp).storeAtGateway
        = storeFilesByPhoneWA ctxs (extractPhoneFromWhatsApp from_)
            (extractPhoneFromWhatsApp from_) store := by
      simp [handleTextMessageWA, hctx, hne, hno]
    rw [hgw, ← hkey]
    exact storeFilesByPhoneWA_lookup ctxs (extractPhoneFromWhatsApp from_)
      (extractPhoneFromWhatsApp from_) store ctx hctx hbuf

theorem claim_C10_witness :
    let ctx : UserContext :=
      { lastMessageTime := 0,
        pendingFiles := [{ kind := FileKind.video, fileId := "intro".toList }] }
    let ctxs : List Char → Option UserContext := fun s =>
      if s = "+79991234567".toList then some ctx else none
    (∃ rest,
        (handleTextMessageWA ctxs
            (extractPhoneFromWhatsApp "whatsapp:+79991234567".toList)
            "hello, I am a nanny".toList FileStore.empty none).events
          = AdapterEvent.publish
                (extractPhoneFromWhatsApp "whatsapp:+79991234567".toList)
              :: AdapterEvent.gateway "hello, I am a nanny".toList :: rest)
    ∧ (handleTextMessageWA ctxs
          (extractPhoneFromWhatsApp "whatsapp:+79991234567".toList)
          "hello, I am a nanny".toList FileStore.empty none).storeAtGateway
        (normalizePhone (stripWaScheme "whatsapp:+79991234567".toList))
        = some (buildEntry ctx.pendingFiles) := by
  intro ctx ctxs
  exact claim_C10 ctxs "whatsapp:+79991234567".toList
    "hello, I am a nanny".toList FileStore.empty none ctx
    (by decide) (by decide) (by decide) (by decide)

end Azumi
